import Mathlib

/-!
Verification development for the config-file demo server (`src/app.js`).

The repository's only source file, `app.js`, is a linear bootstrap script:
it loads a configuration object, initiates a mongoose (document database)
connection, creates one redis client and initiates its connection, builds an
express application, attaches middleware in a fixed lexical order, mounts the
route table, and calls `listen`.  We embed this script shallowly as a state
machine over an explicit event trace: each synchronous statement of the
script becomes a bootstrap step emitting trace events, and the asynchronous
callbacks (the mongoose connect callback, the redis connect promise, the
listen callback) fire after the whole synchronous script has run, which is
how Node's event loop schedules them.  The fixed interleaving chosen for the
asynchronous callbacks places them all after every synchronous event; the
properties proved below depend only on that sync-before-async ordering and
on the body of each callback, not on the relative order of distinct
callbacks.

`app.js` requires `./config.js`, which is not part of the sources; the
configuration resolver is therefore modelled from the specification (see
`resolveConfig`).  The shape of the configuration object
(`connections.mongo`, `connections.redis`, `connections.http.port`,
`secret`, `staticAssets.path`) is the shape `app.js` reads.
-/

/-- The configuration's `connections.http` sub-object (`app.js` reads
`config.connections.http.port`).  Environment values are strings, so the
port is carried as a string. -/
structure HttpConfig where
  port : String
deriving DecidableEq, Repr

/-- The configuration's `connections` sub-object. -/
structure Connections where
  mongo : String
  redis : String
  http : HttpConfig
deriving DecidableEq, Repr

/-- The configuration's `staticAssets` sub-object. -/
structure StaticAssets where
  path : String
deriving DecidableEq, Repr

/-- The configuration structure read by `app.js`:
`config.connections.mongo`, `config.connections.redis`,
`config.connections.http.port`, `config.secret`, `config.staticAssets.path`. -/
structure Config where
  connections : Connections
  staticAssets : StaticAssets
  secret : String
deriving DecidableEq, Repr

/-- The process environment as seen by the config resolver: one optional
string per recognized variable (`none` = unset). -/
structure Env where
  mongoUri : Option String
  redisUrl : Option String
  httpPort : Option String
  sessionSecret : Option String
  staticPath : Option String
deriving DecidableEq, Repr

/-- Resolution policy for a single configuration field: if the named
environment variable is set and non-empty its value is used, otherwise the
fixed default applies.  No error is ever raised. -/
def resolveField (v : Option String) (d : String) : String :=
  match v with
  | some s => if s = "" then d else s
  | none => d

/-- The fixed local/development defaults of the configuration. -/
def defaultConfig : Config :=
  { connections :=
      { mongo := "mongodb://localhost/ConfigDemo"
        redis := "redis://localhost:6379"
        http := { port := "3000" } }
    staticAssets := { path := "clientDev" }
    secret := "Domo Arigato" }

/-- Modelled from the spec: the config resolver of `config.js`, which is
required by `app.js` but absent from the sources.  Per the spec it is a pure
function of the process environment: for each field, if the named
environment variable is set and non-empty its value is used, otherwise a
fixed local/development default applies, and no error is raised for missing
variables. -/
def resolveConfig (e : Env) : Config :=
  { connections :=
      { mongo := resolveField e.mongoUri defaultConfig.connections.mongo
        redis := resolveField e.redisUrl defaultConfig.connections.redis
        http := { port := resolveField e.httpPort defaultConfig.connections.http.port } }
    staticAssets :=
      { path := resolveField e.staticPath defaultConfig.staticAssets.path }
    secret := resolveField e.sessionSecret defaultConfig.secret }

/-- The environment with no recognized variable set. -/
def emptyEnv : Env :=
  { mongoUri := none, redisUrl := none, httpPort := none
    sessionSecret := none, staticPath := none }

/-- Whether a filesystem path string is absolute (begins with `/`). -/
def isAbsolutePath (s : String) : Bool :=
  match s.data with
  | [] => false
  | c :: _ => c = '/'

/-- Model of Node's `path.resolve(p)` against a current working directory:
an absolute path is returned unchanged, a relative path is joined to the
working directory.  (Segment normalization, which does not affect
absoluteness, is not modelled.) -/
def js_path_resolve (cwd p : String) : String :=
  if isAbsolutePath p then p else cwd ++ "/" ++ p

/-- The Node process context `app.js` runs in: the current working directory
(used by `path.resolve`) and the script's directory (`__dirname`). -/
structure NodeCtx where
  cwd : String
  dirname : String
deriving DecidableEq, Repr

/-- The options object passed to `session({...})` at `app.js:82-93`. -/
structure SessionOpts where
  key : String
  storeClientId : Nat
  secret : String
  resave : Bool
  saveUninitialized : Bool
  cookieHttpOnly : Bool
  cookieSecure : Option Bool
  cookieSameSite : Option String
deriving DecidableEq, Repr

/-- Observable events of a run of `app.js`.  Synchronous script statements
emit the first group; the asynchronous callbacks emit the rest. -/
inductive Event where
  | initMongoConnect (url : String)
  | createRedisClient (clientId : Nat) (legacyMode : Bool) (url : String)
  | initRedisConnect (clientId : Nat)
  | createApp
  | useStatic (mountPath : String) (root : String)
  | useCompression
  | useUrlencoded (extended : Bool)
  | useSession (opts : SessionOpts)
  | registerEngine (ext : String) (defaultLayout : String)
  | setViewEngine (name : String)
  | setViews (dir : String)
  | useFavicon (file : String)
  | useCookieParser
  | mountRoutes
  | listenBind (port : String)
  | mongoConnectCallback (err : Bool)
  | redisSettled (err : Bool)
  | listenCallback (err : Bool)
  | consoleLog (msg : String)
  | consoleError
  | fatalThrow
deriving DecidableEq, Repr

/-- The constructor tag of an event, used to state ordering properties
independently of the event's data. -/
inductive Tag where
  | initMongoConnect | createRedisClient | initRedisConnect | createApp
  | useStatic | useCompression | useUrlencoded | useSession | registerEngine
  | setViewEngine | setViews | useFavicon | useCookieParser | mountRoutes
  | listenBind | mongoConnectCallback | redisSettled | listenCallback
  | consoleLog | consoleError | fatalThrow
deriving DecidableEq, Repr

/-- Tag of an event. -/
def Event.tag : Event → Tag
  | .initMongoConnect _ => .initMongoConnect
  | .createRedisClient _ _ _ => .createRedisClient
  | .initRedisConnect _ => .initRedisConnect
  | .createApp => .createApp
  | .useStatic _ _ => .useStatic
  | .useCompression => .useCompression
  | .useUrlencoded _ => .useUrlencoded
  | .useSession _ => .useSession
  | .registerEngine _ _ => .registerEngine
  | .setViewEngine _ => .setViewEngine
  | .setViews _ => .setViews
  | .useFavicon _ => .useFavicon
  | .useCookieParser => .useCookieParser
  | .mountRoutes => .mountRoutes
  | .listenBind _ => .listenBind
  | .mongoConnectCallback _ => .mongoConnectCallback
  | .redisSettled _ => .redisSettled
  | .listenCallback _ => .listenCallback
  | .consoleLog _ => .consoleLog
  | .consoleError => .consoleError
  | .fatalThrow => .fatalThrow

/-- The synchronous statements of `app.js`, in lexical order. -/
inductive BootStep where
  | connectMongo      -- app.js:39 mongoose.connect(config.connections.mongo, cb)
  | createRedis       -- app.js:50 redis.createClient({legacyMode, url})
  | connectRedis      -- app.js:54 redisClient.connect().catch(console.error)
  | createApp         -- app.js:59 const app = express()
  | attachStatic      -- app.js:71 app.use('/assets', express.static(path.resolve(...)))
  | attachCompression -- app.js:73 app.use(compression())
  | attachUrlencoded  -- app.js:74 app.use(bodyParser.urlencoded({extended: true}))
  | attachSession     -- app.js:82 app.use(session({...}))
  | registerEngine    -- app.js:95 app.engine('handlebars', ...)
  | setViewEngine     -- app.js:96 app.set('view engine', 'handlebars')
  | setViews          -- app.js:97 app.set('views', `${__dirname}/../views`)
  | attachFavicon     -- app.js:102 app.use(favicon(path.resolve(...)))
  | attachCookieParser -- app.js:103 app.use(cookieParser())
  | mountRoutes       -- app.js:105 router(app)
  | callListen        -- app.js:111 app.listen(config.connections.http.port, cb)
deriving DecidableEq, Repr

/-- The id of the single redis client `app.js` creates. -/
def redisClientId : Nat := 0

/-- The session options literal of `app.js:82-93`: fixed key `sessionid`,
store backed by the redis client, `config.secret`, `resave` and
`saveUninitialized` both `true`, cookie `{ httpOnly: true }` with no
`secure` or `sameSite`. -/
def sessionOptsOf (c : Config) : SessionOpts :=
  { key := "sessionid"
    storeClientId := redisClientId
    secret := c.secret
    resave := true
    saveUninitialized := true
    cookieHttpOnly := true
    cookieSecure := none
    cookieSameSite := none }

/-- The events each synchronous statement emits, reading (never writing)
the configuration. -/
def stepEvents (ctx : NodeCtx) (c : Config) : BootStep → List Event
  | .connectMongo => [.initMongoConnect c.connections.mongo]
  | .createRedis => [.createRedisClient redisClientId true c.connections.redis]
  | .connectRedis => [.initRedisConnect redisClientId]
  | .createApp => [.createApp]
  | .attachStatic => [.useStatic "/assets" (js_path_resolve ctx.cwd c.staticAssets.path)]
  | .attachCompression => [.useCompression]
  | .attachUrlencoded => [.useUrlencoded true]
  | .attachSession => [.useSession (sessionOptsOf c)]
  | .registerEngine => [.registerEngine "handlebars" ""]
  | .setViewEngine => [.setViewEngine "handlebars"]
  | .setViews => [.setViews (ctx.dirname ++ "/../views")]
  | .attachFavicon =>
      [.useFavicon (js_path_resolve ctx.cwd (c.staticAssets.path ++ "/img/favicon.png"))]
  | .attachCookieParser => [.useCookieParser]
  | .mountRoutes => [.mountRoutes]
  | .callListen => [.listenBind c.connections.http.port]

/-- Bootstrap state: the configuration object and the trace so far. -/
structure BootState where
  config : Config
  events : List Event
deriving DecidableEq, Repr

/-- Execute one synchronous statement: the configuration is read, the
trace grows. -/
def execStep (ctx : NodeCtx) (s : BootState) (st : BootStep) : BootState :=
  { config := s.config, events := s.events ++ stepEvents ctx s.config st }

/-- Execute a sequence of synchronous statements. -/
def execSteps (ctx : NodeCtx) (s : BootState) : List BootStep → BootState
  | [] => s
  | st :: rest => execSteps ctx (execStep ctx s st) rest

/-- The synchronous statements of `app.js` in the order they appear. -/
def bootSteps : List BootStep :=
  [.connectMongo, .createRedis, .connectRedis, .createApp,
   .attachStatic, .attachCompression, .attachUrlencoded, .attachSession,
   .registerEngine, .setViewEngine, .setViews,
   .attachFavicon, .attachCookieParser, .mountRoutes, .callListen]

/-- The synchronous trace of `app.js`: the events of running every
statement from the initial state holding the resolved configuration. -/
def syncTrace (ctx : NodeCtx) (c : Config) : List Event :=
  (execSteps ctx { config := c, events := [] } bootSteps).events

/-- The asynchronous callbacks, fired after the synchronous script:
the mongoose connect callback (`app.js:39-44`, on error logs and throws —
an uncaught throw terminating the process, so nothing runs after it), the
redis connect promise (`app.js:54`, on error only `console.error`), and the
listen callback (`app.js:111-116`, on error throws, on success logs the
startup message). -/
def asyncEvents (port : String) (mongoErr redisErr listenErr : Bool) : List Event :=
  [.mongoConnectCallback mongoErr] ++
    if mongoErr then
      [.consoleLog "Could not connect to database", .fatalThrow]
    else
      [.redisSettled redisErr] ++
        (if redisErr then [.consoleError] else []) ++
        [.listenCallback listenErr] ++
        if listenErr then
          [.fatalThrow]
        else
          [.consoleLog ("Listening on port " ++ port)]

/-- A full run of `app.js`: the synchronous script, then the asynchronous
callbacks, parameterized by whether each of the three asynchronous
operations reports an error. -/
def run (ctx : NodeCtx) (c : Config) (mongoErr redisErr listenErr : Bool) :
    List Event :=
  syncTrace ctx c ++ asyncEvents c.connections.http.port mongoErr redisErr listenErr

/-- The session options of a `useSession` event. -/
def Event.sessionOpts : Event → Option SessionOpts
  | .useSession o => some o
  | _ => none

/-- The (id, legacyMode, url) of a `createRedisClient` event. -/
def Event.redisClientInfo : Event → Option (Nat × Bool × String)
  | .createRedisClient i lm u => some (i, lm, u)
  | _ => none

/-- The file path of a `useFavicon` event. -/
def Event.faviconFile : Event → Option String
  | .useFavicon f => some f
  | _ => none

/-- The (mount path, root) of a `useStatic` event. -/
def Event.staticMount : Event → Option (String × String)
  | .useStatic m r => some (m, r)
  | _ => none

/-- A concrete process context used for concrete evaluations. -/
def ctx0 : NodeCtx := { cwd := "/app", dirname := "/app/src" }

/-- The tag sequence of the synchronous script, one tag per statement. -/
def syncTags : List Tag :=
  [Tag.initMongoConnect, Tag.createRedisClient, Tag.initRedisConnect, Tag.createApp,
   Tag.useStatic, Tag.useCompression, Tag.useUrlencoded, Tag.useSession,
   Tag.registerEngine, Tag.setViewEngine, Tag.setViews,
   Tag.useFavicon, Tag.useCookieParser, Tag.mountRoutes, Tag.listenBind]

/-- The tag sequence of the asynchronous callbacks. -/
def asyncTags (mongoErr redisErr listenErr : Bool) : List Tag :=
  [Tag.mongoConnectCallback] ++
    if mongoErr then
      [Tag.consoleLog, Tag.fatalThrow]
    else
      [Tag.redisSettled] ++
        (if redisErr then [Tag.consoleError] else []) ++
        [Tag.listenCallback] ++
        if listenErr then [Tag.fatalThrow] else [Tag.consoleLog]

theorem syncTrace_eq (ctx : NodeCtx) (c : Config) :
    syncTrace ctx c =
      [.initMongoConnect c.connections.mongo,
       .createRedisClient redisClientId true c.connections.redis,
       .initRedisConnect redisClientId,
       .createApp,
       .useStatic "/assets" (js_path_resolve ctx.cwd c.staticAssets.path),
       .useCompression,
       .useUrlencoded true,
       .useSession (sessionOptsOf c),
       .registerEngine "handlebars" "",
       .setViewEngine "handlebars",
       .setViews (ctx.dirname ++ "/../views"),
       .useFavicon (js_path_resolve ctx.cwd (c.staticAssets.path ++ "/img/favicon.png")),
       .useCookieParser,
       .mountRoutes,
       .listenBind c.connections.http.port] := by
  simp [syncTrace, execSteps, execStep, stepEvents, bootSteps]

theorem run_tags (ctx : NodeCtx) (c : Config) (m r l : Bool) :
    (run ctx c m r l).map Event.tag = syncTags ++ asyncTags m r l := by
  cases m <;> cases r <;> cases l <;>
    simp [run, syncTrace_eq, asyncEvents, Event.tag, syncTags, asyncTags]

theorem syncTags_mid_sublist :
    List.Sublist
      [Tag.useStatic, Tag.useCompression, Tag.useUrlencoded, Tag.useSession,
       Tag.registerEngine, Tag.useFavicon, Tag.useCookieParser, Tag.mountRoutes,
       Tag.listenBind] syncTags := by decide

/-- C1: the bootstrap attaches middleware in the fixed order static-asset
serving, compression, URL-encoded body parsing, session, templating engine
registration, favicon, cookie parsing, route mounting, with the listen call
after all of them, in every run. -/
theorem C1_middleware_order (ctx : NodeCtx) (c : Config) (m r l : Bool) :
    List.Sublist
      [Tag.useStatic, Tag.useCompression, Tag.useUrlencoded, Tag.useSession,
       Tag.registerEngine, Tag.useFavicon, Tag.useCookieParser, Tag.mountRoutes,
       Tag.listenBind]
      ((run ctx c m r l).map Event.tag) := by
  rw [run_tags]
  exact syncTags_mid_sublist.trans (List.sublist_append_left _ _)

/-- C2 counterexample: in the run where the mongo connection fails (with the
default configuration), the process does terminate, and the listen-socket
bind is attempted, but the fatal termination does NOT come before the bind:
the bind's index precedes the termination's index. -/
theorem C2_counterexample :
    (Tag.fatalThrow ∈ (run ctx0 defaultConfig true false false).map Event.tag) ∧
    (Tag.listenBind ∈ (run ctx0 defaultConfig true false false).map Event.tag) ∧
    ¬ ((run ctx0 defaultConfig true false false).map Event.tag).indexOf Tag.fatalThrow <
      ((run ctx0 defaultConfig true false false).map Event.tag).indexOf Tag.listenBind := by
  rw [run_tags]
  decide

/-- C2 amended: when the persistence connection reports failure the failure
is logged and the process terminates fatally, with no retry (a single
connection attempt) and nothing after the termination; but the termination
happens after the synchronous bootstrap has already attempted to bind the
listen socket, not before. -/
theorem C2_mongo_failure_fatal (ctx : NodeCtx) (c : Config) (r l : Bool) :
    Event.consoleLog "Could not connect to database" ∈ run ctx c true r l ∧
    Event.fatalThrow ∈ run ctx c true r l ∧
    ((run ctx c true r l).map Event.tag).count Tag.initMongoConnect = 1 ∧
    ((run ctx c true r l).map Event.tag).count Tag.fatalThrow = 1 ∧
    (run ctx c true r l).getLast? = some Event.fatalThrow ∧
    List.Sublist [Tag.listenBind, Tag.fatalThrow] ((run ctx c true r l).map Event.tag) := by
  refine ⟨?_, ?_, ?_, ?_, ?_, ?_⟩
  · simp [run, syncTrace_eq, asyncEvents]
  · simp [run, syncTrace_eq, asyncEvents]
  · rw [run_tags]; cases r <;> cases l <;> decide
  · rw [run_tags]; cases r <;> cases l <;> decide
  · simp [run, syncTrace_eq, asyncEvents]
  · rw [run_tags]; cases r <;> cases l <;> decide

/-- C3: when the cache connection reports failure the failure is logged via
the console-error handler, the bootstrap still reaches the listen-bind
attempt, the cache connection is attempted exactly once (no retry), and
(when the listen itself succeeds) no fatal termination occurs at all. -/
theorem C3_redis_failure_nonfatal (ctx : NodeCtx) (c : Config) (l : Bool) :
    Event.consoleError ∈ run ctx c false true l ∧
    Tag.listenBind ∈ (run ctx c false true l).map Event.tag ∧
    ((run ctx c false true l).map Event.tag).count Tag.initRedisConnect = 1 ∧
    Event.fatalThrow ∉ run ctx c false true false := by
  refine ⟨?_, ?_, ?_, ?_⟩
  · cases l <;> simp [run, syncTrace_eq, asyncEvents]
  · rw [run_tags]; cases l <;> decide
  · rw [run_tags]; cases l <;> decide
  · simp [run, syncTrace_eq, asyncEvents]

/-- C4: the server's listen call binds the configured HTTP port in every
run; in runs that reach the listen callback, a failing listen throws a
fatal error and a successful listen emits the startup message, and these
two outcomes are exhaustive. -/
theorem C4_listen_outcomes (ctx : NodeCtx) (c : Config) (r : Bool) :
    (∀ l, Event.listenBind c.connections.http.port ∈ run ctx c false r l) ∧
    Event.fatalThrow ∈ run ctx c false r true ∧
    Event.consoleLog ("Listening on port " ++ c.connections.http.port) ∈
      run ctx c false r false ∧
    Event.fatalThrow ∉ run ctx c false r false ∧
    (∀ l, Event.fatalThrow ∈ run ctx c false r l ∨
      Event.consoleLog ("Listening on port " ++ c.connections.http.port) ∈
        run ctx c false r l) := by
  refine ⟨?_, ?_, ?_, ?_, ?_⟩
  · intro l; cases r <;> cases l <;> simp [run, syncTrace_eq, asyncEvents]
  · cases r <;> simp [run, syncTrace_eq, asyncEvents]
  · cases r <;> simp [run, syncTrace_eq, asyncEvents]
  · cases r <;> simp [run, syncTrace_eq, asyncEvents]
  · intro l
    cases l
    · right; cases r <;> simp [run, syncTrace_eq, asyncEvents]
    · left; cases r <;> simp [run, syncTrace_eq, asyncEvents]

/-- C5: the session middleware is attached exactly once, with the fixed
cookie name `sessionid`, backed by the single redis client, using the
configured secret, `resave` and `saveUninitialized` both enabled, cookie
`httpOnly` set, and neither `secure` nor `sameSite` specified. -/
theorem C5_session_config (ctx : NodeCtx) (c : Config) (m r l : Bool) :
    (run ctx c m r l).filterMap Event.sessionOpts =
      [{ key := "sessionid", storeClientId := redisClientId, secret := c.secret,
         resave := true, saveUninitialized := true, cookieHttpOnly := true,
         cookieSecure := none, cookieSameSite := none }] := by
  cases m <;> cases r <;> cases l <;>
    simp [run, syncTrace_eq, asyncEvents, Event.sessionOpts, sessionOptsOf]

/-- C6: the config resolver is a pure total function of the environment;
when every recognized variable is set and non-empty the resolved structure
equals exactly the environment values, and when none is set it equals the
fixed default structure. -/
theorem C6_config_resolution (mv rv pv sv tv : String)
    (hm : mv ≠ "") (hr : rv ≠ "") (hp : pv ≠ "") (hs : sv ≠ "") (ht : tv ≠ "") :
    resolveConfig { mongoUri := some mv, redisUrl := some rv, httpPort := some pv,
                    sessionSecret := some sv, staticPath := some tv } =
      { connections := { mongo := mv, redis := rv, http := { port := pv } },
        staticAssets := { path := tv }, secret := sv } ∧
    resolveConfig emptyEnv = defaultConfig := by
  constructor
  · simp [resolveConfig, resolveField, emptyEnv, hm, hr, hp, hs, ht]
  · rfl

theorem C6_config_resolution_witness :
    resolveConfig { mongoUri := some "mongodb://db/x", redisUrl := some "redis://r",
                    httpPort := some "8080", sessionSecret := some "s3cret",
                    staticPath := some "client" } =
      { connections := { mongo := "mongodb://db/x", redis := "redis://r",
                         http := { port := "8080" } },
        staticAssets := { path := "client" }, secret := "s3cret" } ∧
    resolveConfig emptyEnv = defaultConfig :=
  C6_config_resolution "mongodb://db/x" "redis://r" "8080" "s3cret" "client"
    (by decide) (by decide) (by decide) (by decide) (by decide)

/-- C7: the listen-bind attempt comes after route mounting (hence after all
middleware attachment) but before the persistence connection's completion
callback and before the cache connection settles, and both connection
attempts are initiated before the bind; so the server can begin accepting
connections before the database connection is confirmed. -/
theorem C7_listen_no_wait (ctx : NodeCtx) (c : Config) (r l : Bool) :
    List.Sublist [Tag.mountRoutes, Tag.listenBind, Tag.mongoConnectCallback]
      ((run ctx c false r l).map Event.tag) ∧
    List.Sublist [Tag.listenBind, Tag.redisSettled]
      ((run ctx c false r l).map Event.tag) ∧
    List.Sublist [Tag.initMongoConnect, Tag.initRedisConnect, Tag.listenBind]
      ((run ctx c false r l).map Event.tag) := by
  rw [run_tags]
  cases r <;> cases l <;> exact ⟨by decide, by decide, by decide⟩

/-- C8: no bootstrap step writes the configuration: executing any sequence
of synchronous statements leaves the configuration component of the state
equal to the initially resolved configuration. -/
theorem C8_config_immutable (ctx : NodeCtx) (s : BootState) (steps : List BootStep) :
    (execSteps ctx s steps).config = s.config := by
  induction steps generalizing s with
  | nil => rfl
  | cons st rest ih => exact (ih (execStep ctx s st)).trans rfl

/-- C9: exactly one redis client is created during bootstrap, with legacy
mode enabled and the configured cache URL, and the session store is
constructed with that same client. -/
theorem C9_single_redis_client (ctx : NodeCtx) (c : Config) (m r l : Bool) :
    (run ctx c m r l).filterMap Event.redisClientInfo =
      [(redisClientId, true, c.connections.redis)] ∧
    ((run ctx c m r l).filterMap Event.sessionOpts).map SessionOpts.storeClientId =
      [redisClientId] := by
  cases m <;> cases r <;> cases l <;>
    exact ⟨by simp [run, syncTrace_eq, asyncEvents, Event.redisClientInfo],
           by simp [run, syncTrace_eq, asyncEvents, Event.sessionOpts, sessionOptsOf]⟩

theorem isAbsolutePath_append (s t : String) (h : isAbsolutePath s = true) :
    isAbsolutePath (s ++ t) = true := by
  unfold isAbsolutePath at h ⊢
  rw [String.data_append]
  cases hs : s.data with
  | nil => rw [hs] at h; simp at h
  | cons ch rest => rw [hs] at h; simpa using h

theorem isAbsolutePath_resolve (cwd p : String) (h : isAbsolutePath cwd = true) :
    isAbsolutePath (js_path_resolve cwd p) = true := by
  unfold js_path_resolve
  by_cases hp : isAbsolutePath p = true
  · simp [hp]
  · simp only [Bool.not_eq_true] at hp
    simp only [hp, Bool.false_eq_true, if_false]
    exact isAbsolutePath_append _ _ (isAbsolutePath_append _ _ h)

/-- C10: the favicon is served from the file `img/favicon.png` beneath the
configured static-assets path, the static root is the resolved static-assets
path, both are passed through path resolution, and (for an absolute working
directory) both resulting paths are absolute. -/
theorem C10_favicon_path (ctx : NodeCtx) (c : Config) (m r l : Bool)
    (h : isAbsolutePath ctx.cwd = true) :
    (run ctx c m r l).filterMap Event.faviconFile =
      [js_path_resolve ctx.cwd (c.staticAssets.path ++ "/img/favicon.png")] ∧
    (run ctx c m r l).filterMap Event.staticMount =
      [("/assets", js_path_resolve ctx.cwd c.staticAssets.path)] ∧
    isAbsolutePath (js_path_resolve ctx.cwd (c.staticAssets.path ++ "/img/favicon.png")) = true ∧
    isAbsolutePath (js_path_resolve ctx.cwd c.staticAssets.path) = true := by
  refine ⟨?_, ?_, isAbsolutePath_resolve _ _ h, isAbsolutePath_resolve _ _ h⟩
  · cases m <;> cases r <;> cases l <;>
      simp [run, syncTrace_eq, asyncEvents, Event.faviconFile]
  · cases m <;> cases r <;> cases l <;>
      simp [run, syncTrace_eq, asyncEvents, Event.staticMount]

theorem C10_favicon_path_witness :
    isAbsolutePath ctx0.cwd = true ∧
    ((run ctx0 defaultConfig false false false).filterMap Event.faviconFile =
      [js_path_resolve ctx0.cwd (defaultConfig.staticAssets.path ++ "/img/favicon.png")] ∧
    (run ctx0 defaultConfig false false false).filterMap Event.staticMount =
      [("/assets", js_path_resolve ctx0.cwd defaultConfig.staticAssets.path)] ∧
    isAbsolutePath (js_path_resolve ctx0.cwd
      (defaultConfig.staticAssets.path ++ "/img/favicon.png")) = true ∧
    isAbsolutePath (js_path_resolve ctx0.cwd defaultConfig.staticAssets.path) = true) :=
  ⟨by decide, C10_favicon_path ctx0 defaultConfig false false false (by decide)⟩
